import Mathlib

set_option maxRecDepth 8192

/-!
Verification of the GLTF Collection Exporter Blender add-on
(`collection_gltf_exporter.py`) against its natural-language specification.

The add-on is a thin layer over a host application (Blender): it stores a
boolean custom property `export_gltf` on collections, and a batch export
loop that, for every flagged collection with at least one object in the
current scene, selects the objects and invokes the host glTF exporter
operator `bpy.ops.export_scene.gltf` on a path derived from the collection
name.  The embedding below models the host-visible state the add-on reads
and writes (collections, scene objects, selection, active object) and
records every host-operator and file-system call the add-on makes in an
explicit event trace.  The host exporter itself is a foreign operator; its
success or failure is modelled by an oracle function, since the Python code
wraps the call in `try/except` and only observes success or an exception.

Paths are modelled as `List Char`; `os.path.join` is modelled by its POSIX
definition (`posixpath.join`).  Python's Unicode-aware `str.isalnum` is
modelled by an explicit table of code-point intervals taken from the
Unicode 14.0.0 character database that CPython's `str.isalnum` queries.
-/

/-- Model of a Blender collection as the add-on reads it: its name, the
`export_gltf` custom property (`none` when the property is absent), the
names of the objects directly contained in it (`collection.objects`), and
the names of its child collections (`collection.children`). -/
structure Collection where
  name : String
  export_gltf : Option Bool
  objects : List String
  children : List String
deriving DecidableEq

/-- Events recorded while the add-on runs: host-operator calls
(`bpy.ops.object.mode_set`, `bpy.ops.object.select_all`,
`bpy.ops.export_scene.gltf`) and file-system calls (`os.makedirs`).  The
constructor `fileWrite` stands for the add-on writing file bytes itself;
it exists in the event language so that "the code never touches glTF
bytes" is a provable statement, and no definition below ever emits it. -/
inductive Event where
  | opModeSet (mode : String)
  | opSelectAll (action : String)
  | osMakedirs (path : List Char)
  | opExportGltf (collectionName : String) (filepath : List Char)
      (use_selection : Bool) (export_apply : Bool) (ok : Bool)
  | fileWrite (path : List Char)
deriving DecidableEq

/-- Host-visible state threaded through the export run: the selected
objects, the active object, the event trace so far, and the add-on's
`exported_count` counter. -/
structure ExportState where
  selected : List String
  active : Option String
  trace : List Event
  exported_count : Nat
deriving DecidableEq

/-- Inclusive intervals of Unicode code points on which Python's
`str.isalnum` returns `True` (alphabetic, decimal, digit or numeric
characters), from the Unicode 14.0.0 character database.  Surrogate code
points (not valid `Char`s) carry `False` in Python as well, so omitting
them loses nothing. -/
def pyAlnumRanges : List (Nat × Nat) := [
  (48, 57), (65, 90), (97, 122), (170, 170),
  (178, 179), (181, 181), (185, 186), (188, 190),
  (192, 214), (216, 246), (248, 705), (710, 721),
  (736, 740), (748, 748), (750, 750), (880, 884),
  (886, 887), (890, 893), (895, 895), (902, 902),
  (904, 906), (908, 908), (910, 929), (931, 1013),
  (1015, 1153), (1162, 1327), (1329, 1366), (1369, 1369),
  (1376, 1416), (1488, 1514), (1519, 1522), (1568, 1610),
  (1632, 1641), (1646, 1647), (1649, 1747), (1749, 1749),
  (1765, 1766), (1774, 1788), (1791, 1791), (1808, 1808),
  (1810, 1839), (1869, 1957), (1969, 1969), (1984, 2026),
  (2036, 2037), (2042, 2042), (2048, 2069), (2074, 2074),
  (2084, 2084), (2088, 2088), (2112, 2136), (2144, 2154),
  (2160, 2183), (2185, 2190), (2208, 2249), (2308, 2361),
  (2365, 2365), (2384, 2384), (2392, 2401), (2406, 2415),
  (2417, 2432), (2437, 2444), (2447, 2448), (2451, 2472),
  (2474, 2480), (2482, 2482), (2486, 2489), (2493, 2493),
  (2510, 2510), (2524, 2525), (2527, 2529), (2534, 2545),
  (2548, 2553), (2556, 2556), (2565, 2570), (2575, 2576),
  (2579, 2600), (2602, 2608), (2610, 2611), (2613, 2614),
  (2616, 2617), (2649, 2652), (2654, 2654), (2662, 2671),
  (2674, 2676), (2693, 2701), (2703, 2705), (2707, 2728),
  (2730, 2736), (2738, 2739), (2741, 2745), (2749, 2749),
  (2768, 2768), (2784, 2785), (2790, 2799), (2809, 2809),
  (2821, 2828), (2831, 2832), (2835, 2856), (2858, 2864),
  (2866, 2867), (2869, 2873), (2877, 2877), (2908, 2909),
  (2911, 2913), (2918, 2927), (2929, 2935), (2947, 2947),
  (2949, 2954), (2958, 2960), (2962, 2965), (2969, 2970),
  (2972, 2972), (2974, 2975), (2979, 2980), (2984, 2986),
  (2990, 3001), (3024, 3024), (3046, 3058), (3077, 3084),
  (3086, 3088), (3090, 3112), (3114, 3129), (3133, 3133),
  (3160, 3162), (3165, 3165), (3168, 3169), (3174, 3183),
  (3192, 3198), (3200, 3200), (3205, 3212), (3214, 3216),
  (3218, 3240), (3242, 3251), (3253, 3257), (3261, 3261),
  (3293, 3294), (3296, 3297), (3302, 3311), (3313, 3314),
  (3332, 3340), (3342, 3344), (3346, 3386), (3389, 3389),
  (3406, 3406), (3412, 3414), (3416, 3425), (3430, 3448),
  (3450, 3455), (3461, 3478), (3482, 3505), (3507, 3515),
  (3517, 3517), (3520, 3526), (3558, 3567), (3585, 3632),
  (3634, 3635), (3648, 3654), (3664, 3673), (3713, 3714),
  (3716, 3716), (3718, 3722), (3724, 3747), (3749, 3749),
  (3751, 3760), (3762, 3763), (3773, 3773), (3776, 3780),
  (3782, 3782), (3792, 3801), (3804, 3807), (3840, 3840),
  (3872, 3891), (3904, 3911), (3913, 3948), (3976, 3980),
  (4096, 4138), (4159, 4169), (4176, 4181), (4186, 4189),
  (4193, 4193), (4197, 4198), (4206, 4208), (4213, 4225),
  (4238, 4238), (4240, 4249), (4256, 4293), (4295, 4295),
  (4301, 4301), (4304, 4346), (4348, 4680), (4682, 4685),
  (4688, 4694), (4696, 4696), (4698, 4701), (4704, 4744),
  (4746, 4749), (4752, 4784), (4786, 4789), (4792, 4798),
  (4800, 4800), (4802, 4805), (4808, 4822), (4824, 4880),
  (4882, 4885), (4888, 4954), (4969, 4988), (4992, 5007),
  (5024, 5109), (5112, 5117), (5121, 5740), (5743, 5759),
  (5761, 5786), (5792, 5866), (5870, 5880), (5888, 5905),
  (5919, 5937), (5952, 5969), (5984, 5996), (5998, 6000),
  (6016, 6067), (6103, 6103), (6108, 6108), (6112, 6121),
  (6128, 6137), (6160, 6169), (6176, 6264), (6272, 6276),
  (6279, 6312), (6314, 6314), (6320, 6389), (6400, 6430),
  (6470, 6509), (6512, 6516), (6528, 6571), (6576, 6601),
  (6608, 6618), (6656, 6678), (6688, 6740), (6784, 6793),
  (6800, 6809), (6823, 6823), (6917, 6963), (6981, 6988),
  (6992, 7001), (7043, 7072), (7086, 7141), (7168, 7203),
  (7232, 7241), (7245, 7293), (7296, 7304), (7312, 7354),
  (7357, 7359), (7401, 7404), (7406, 7411), (7413, 7414),
  (7418, 7418), (7424, 7615), (7680, 7957), (7960, 7965),
  (7968, 8005), (8008, 8013), (8016, 8023), (8025, 8025),
  (8027, 8027), (8029, 8029), (8031, 8061), (8064, 8116),
  (8118, 8124), (8126, 8126), (8130, 8132), (8134, 8140),
  (8144, 8147), (8150, 8155), (8160, 8172), (8178, 8180),
  (8182, 8188), (8304, 8305), (8308, 8313), (8319, 8329),
  (8336, 8348), (8450, 8450), (8455, 8455), (8458, 8467),
  (8469, 8469), (8473, 8477), (8484, 8484), (8486, 8486),
  (8488, 8488), (8490, 8493), (8495, 8505), (8508, 8511),
  (8517, 8521), (8526, 8526), (8528, 8585), (9312, 9371),
  (9450, 9471), (10102, 10131), (11264, 11492), (11499, 11502),
  (11506, 11507), (11517, 11517), (11520, 11557), (11559, 11559),
  (11565, 11565), (11568, 11623), (11631, 11631), (11648, 11670),
  (11680, 11686), (11688, 11694), (11696, 11702), (11704, 11710),
  (11712, 11718), (11720, 11726), (11728, 11734), (11736, 11742),
  (11823, 11823), (12293, 12295), (12321, 12329), (12337, 12341),
  (12344, 12348), (12353, 12438), (12445, 12447), (12449, 12538),
  (12540, 12543), (12549, 12591), (12593, 12686), (12690, 12693),
  (12704, 12735), (12784, 12799), (12832, 12841), (12872, 12879),
  (12881, 12895), (12928, 12937), (12977, 12991), (13312, 19903),
  (19968, 42124), (42192, 42237), (42240, 42508), (42512, 42539),
  (42560, 42606), (42623, 42653), (42656, 42735), (42775, 42783),
  (42786, 42888), (42891, 42954), (42960, 42961), (42963, 42963),
  (42965, 42969), (42994, 43009), (43011, 43013), (43015, 43018),
  (43020, 43042), (43056, 43061), (43072, 43123), (43138, 43187),
  (43216, 43225), (43250, 43255), (43259, 43259), (43261, 43262),
  (43264, 43301), (43312, 43334), (43360, 43388), (43396, 43442),
  (43471, 43481), (43488, 43492), (43494, 43518), (43520, 43560),
  (43584, 43586), (43588, 43595), (43600, 43609), (43616, 43638),
  (43642, 43642), (43646, 43695), (43697, 43697), (43701, 43702),
  (43705, 43709), (43712, 43712), (43714, 43714), (43739, 43741),
  (43744, 43754), (43762, 43764), (43777, 43782), (43785, 43790),
  (43793, 43798), (43808, 43814), (43816, 43822), (43824, 43866),
  (43868, 43881), (43888, 44002), (44016, 44025), (44032, 55203),
  (55216, 55238), (55243, 55291), (63744, 64109), (64112, 64217),
  (64256, 64262), (64275, 64279), (64285, 64285), (64287, 64296),
  (64298, 64310), (64312, 64316), (64318, 64318), (64320, 64321),
  (64323, 64324), (64326, 64433), (64467, 64829), (64848, 64911),
  (64914, 64967), (65008, 65019), (65136, 65140), (65142, 65276),
  (65296, 65305), (65313, 65338), (65345, 65370), (65382, 65470),
  (65474, 65479), (65482, 65487), (65490, 65495), (65498, 65500),
  (65536, 65547), (65549, 65574), (65576, 65594), (65596, 65597),
  (65599, 65613), (65616, 65629), (65664, 65786), (65799, 65843),
  (65856, 65912), (65930, 65931), (66176, 66204), (66208, 66256),
  (66273, 66299), (66304, 66339), (66349, 66378), (66384, 66421),
  (66432, 66461), (66464, 66499), (66504, 66511), (66513, 66517),
  (66560, 66717), (66720, 66729), (66736, 66771), (66776, 66811),
  (66816, 66855), (66864, 66915), (66928, 66938), (66940, 66954),
  (66956, 66962), (66964, 66965), (66967, 66977), (66979, 66993),
  (66995, 67001), (67003, 67004), (67072, 67382), (67392, 67413),
  (67424, 67431), (67456, 67461), (67463, 67504), (67506, 67514),
  (67584, 67589), (67592, 67592), (67594, 67637), (67639, 67640),
  (67644, 67644), (67647, 67669), (67672, 67702), (67705, 67742),
  (67751, 67759), (67808, 67826), (67828, 67829), (67835, 67867),
  (67872, 67897), (67968, 68023), (68028, 68047), (68050, 68096),
  (68112, 68115), (68117, 68119), (68121, 68149), (68160, 68168),
  (68192, 68222), (68224, 68255), (68288, 68295), (68297, 68324),
  (68331, 68335), (68352, 68405), (68416, 68437), (68440, 68466),
  (68472, 68497), (68521, 68527), (68608, 68680), (68736, 68786),
  (68800, 68850), (68858, 68899), (68912, 68921), (69216, 69246),
  (69248, 69289), (69296, 69297), (69376, 69415), (69424, 69445),
  (69457, 69460), (69488, 69505), (69552, 69579), (69600, 69622),
  (69635, 69687), (69714, 69743), (69745, 69746), (69749, 69749),
  (69763, 69807), (69840, 69864), (69872, 69881), (69891, 69926),
  (69942, 69951), (69956, 69956), (69959, 69959), (69968, 70002),
  (70006, 70006), (70019, 70066), (70081, 70084), (70096, 70106),
  (70108, 70108), (70113, 70132), (70144, 70161), (70163, 70187),
  (70272, 70278), (70280, 70280), (70282, 70285), (70287, 70301),
  (70303, 70312), (70320, 70366), (70384, 70393), (70405, 70412),
  (70415, 70416), (70419, 70440), (70442, 70448), (70450, 70451),
  (70453, 70457), (70461, 70461), (70480, 70480), (70493, 70497),
  (70656, 70708), (70727, 70730), (70736, 70745), (70751, 70753),
  (70784, 70831), (70852, 70853), (70855, 70855), (70864, 70873),
  (71040, 71086), (71128, 71131), (71168, 71215), (71236, 71236),
  (71248, 71257), (71296, 71338), (71352, 71352), (71360, 71369),
  (71424, 71450), (71472, 71483), (71488, 71494), (71680, 71723),
  (71840, 71922), (71935, 71942), (71945, 71945), (71948, 71955),
  (71957, 71958), (71960, 71983), (71999, 71999), (72001, 72001),
  (72016, 72025), (72096, 72103), (72106, 72144), (72161, 72161),
  (72163, 72163), (72192, 72192), (72203, 72242), (72250, 72250),
  (72272, 72272), (72284, 72329), (72349, 72349), (72368, 72440),
  (72704, 72712), (72714, 72750), (72768, 72768), (72784, 72812),
  (72818, 72847), (72960, 72966), (72968, 72969), (72971, 73008),
  (73030, 73030), (73040, 73049), (73056, 73061), (73063, 73064),
  (73066, 73097), (73112, 73112), (73120, 73129), (73440, 73458),
  (73648, 73648), (73664, 73684), (73728, 74649), (74752, 74862),
  (74880, 75075), (77712, 77808), (77824, 78894), (82944, 83526),
  (92160, 92728), (92736, 92766), (92768, 92777), (92784, 92862),
  (92864, 92873), (92880, 92909), (92928, 92975), (92992, 92995),
  (93008, 93017), (93019, 93025), (93027, 93047), (93053, 93071),
  (93760, 93846), (93952, 94026), (94032, 94032), (94099, 94111),
  (94176, 94177), (94179, 94179), (94208, 100343), (100352, 101589),
  (101632, 101640), (110576, 110579), (110581, 110587), (110589, 110590),
  (110592, 110882), (110928, 110930), (110948, 110951), (110960, 111355),
  (113664, 113770), (113776, 113788), (113792, 113800), (113808, 113817),
  (119520, 119539), (119648, 119672), (119808, 119892), (119894, 119964),
  (119966, 119967), (119970, 119970), (119973, 119974), (119977, 119980),
  (119982, 119993), (119995, 119995), (119997, 120003), (120005, 120069),
  (120071, 120074), (120077, 120084), (120086, 120092), (120094, 120121),
  (120123, 120126), (120128, 120132), (120134, 120134), (120138, 120144),
  (120146, 120485), (120488, 120512), (120514, 120538), (120540, 120570),
  (120572, 120596), (120598, 120628), (120630, 120654), (120656, 120686),
  (120688, 120712), (120714, 120744), (120746, 120770), (120772, 120779),
  (120782, 120831), (122624, 122654), (123136, 123180), (123191, 123197),
  (123200, 123209), (123214, 123214), (123536, 123565), (123584, 123627),
  (123632, 123641), (124896, 124902), (124904, 124907), (124909, 124910),
  (124912, 124926), (124928, 125124), (125127, 125135), (125184, 125251),
  (125259, 125259), (125264, 125273), (126065, 126123), (126125, 126127),
  (126129, 126132), (126209, 126253), (126255, 126269), (126464, 126467),
  (126469, 126495), (126497, 126498), (126500, 126500), (126503, 126503),
  (126505, 126514), (126516, 126519), (126521, 126521), (126523, 126523),
  (126530, 126530), (126535, 126535), (126537, 126537), (126539, 126539),
  (126541, 126543), (126545, 126546), (126548, 126548), (126551, 126551),
  (126553, 126553), (126555, 126555), (126557, 126557), (126559, 126559),
  (126561, 126562), (126564, 126564), (126567, 126570), (126572, 126578),
  (126580, 126583), (126585, 126588), (126590, 126590), (126592, 126601),
  (126603, 126619), (126625, 126627), (126629, 126633), (126635, 126651),
  (127232, 127244), (130032, 130041), (131072, 173791), (173824, 177976),
  (177984, 178205), (178208, 183969), (183984, 191456), (194560, 195101),
  (196608, 201546)
]

/-- Model of Python's Unicode-aware `str.isalnum`: membership in one of
the alphanumeric code-point intervals. -/
def pyIsAlnum (c : Char) : Bool :=
  pyAlnumRanges.any (fun r => r.1 ≤ c.toNat && c.toNat ≤ r.2)

/-- Character predicate of line 334 of the source:
`c.isalnum() or c in (' ', '-', '_')`. -/
def keepChar (c : Char) : Bool :=
  pyIsAlnum c || c = ' ' || c = '-' || c = '_'

/-- Model of Python's `str.rstrip()` (strip trailing whitespace). -/
def dropTrailingWs (s : List Char) : List Char :=
  (s.reverse.dropWhile (fun c => c.isWhitespace)).reverse

/-- Line 334 of the source: `safe_collection_name`, the collection name
with every character that is neither alphanumeric nor one of space, dash,
underscore removed, and trailing whitespace stripped. -/
def sanitizeChars (s : List Char) : List Char :=
  dropTrailingWs (s.filter keepChar)

/-- The characters of the literal `".gltf"` appended to the sanitized name
on line 336 of the source. -/
def gltfExt : List Char := ['.', 'g', 'l', 't', 'f']

/-- Model of `os.path.join(a, b)` on POSIX (`posixpath.join`): an absolute
second component replaces the first; otherwise a separator is inserted
unless the first component is empty or already ends with one. -/
def joinTwo (a b : List Char) : List Char :=
  if b.head? = some '/' then b
  else if a = [] then b
  else if a.getLast? = some '/' then a ++ b
  else a ++ '/' :: b

/-- Model of `os.path.join(*parts)` for a non-empty list of parts
(line 326 of the source calls it with at least one part). -/
def joinMany : List String → List Char
  | [] => []
  | h :: t => t.foldl (fun acc b => joinTwo acc b.data) h.data

/-- The component of a path after its last separator. -/
def lastComp (s : List Char) : List Char :=
  (s.reverse.takeWhile (fun c => c != '/')).reverse

/-- The `export_gltf` custom property as the code reads it on lines 86,
128 and 286: `collection.get("export_gltf", False)`, an absent property
counting as `False`. -/
def flagOf (c : Collection) : Bool :=
  c.export_gltf.getD false

/-- Whether some collection lists `n` among its children, by name: the
check made on lines 228-229 and 233-236 of the source. -/
def hasParent (cols : List Collection) (n : String) : Bool :=
  cols.any (fun g => g.children.contains n)

/-- Model of the inner recursive function `find_parents` of
`get_collection_hierarchy_path` (lines 227-242).  The Python recursion is
unbounded, so the model takes explicit fuel; `none` means the recursion
did not finish within the given fuel, which on an acyclic hierarchy never
happens once the fuel exceeds the depth of the collection (proved below).
The scan `for parent_collection in bpy.data.collections` returning on the
first hit is `List.find?`. -/
def find_parents (cols : List Collection) : Nat → Collection → List String → Option (List String)
  | 0, _, _ => none
  | Nat.succ fuel, target_collection, current_path =>
    match cols.find? (fun p => p.children.contains target_collection.name) with
    | none => some current_path
    | some parent_collection =>
      let new_path := current_path ++ [parent_collection.name]
      if hasParent cols parent_collection.name then
        find_parents cols fuel parent_collection new_path
      else
        some new_path

/-- Model of `get_collection_hierarchy_path` (lines 219-244): run
`find_parents` on the collection with an empty accumulated path. -/
def get_collection_hierarchy_path (cols : List Collection) (fuel : Nat)
    (collection : Collection) : Option (List String) :=
  find_parents cols fuel collection []

/-- Specification-side description of an ancestor chain: `AncChain cols n l`
holds when `l` lists ancestor collections of the collection named `n`
starting from its immediate parent and ending at a root (a collection that
is nobody's child). -/
inductive AncChain (cols : List Collection) : String → List Collection → Prop where
  | nil (n : String) (h : ∀ p ∈ cols, p.children.contains n = false) :
      AncChain cols n []
  | cons (n : String) (p : Collection) (l : List Collection)
      (hmem : p ∈ cols) (hchild : p.children.contains n = true)
      (htail : AncChain cols p.name l) : AncChain cols n (p :: l)

/-- Parameters of one batch export run that stay fixed throughout it: the
fuel for the parent walk, the collection list (`bpy.data.collections`),
the names of the objects of the current scene
(`bpy.context.scene.objects`), the `use_collection_structure` option, the
resolved export path, and the outcome oracle for the host exporter
operator (whether `bpy.ops.export_scene.gltf` raises for a given
collection name and file path). -/
structure Ctx where
  fuel : Nat
  cols : List Collection
  sceneObjs : List String
  use_structure : Bool
  export_path : List Char
  exOk : String → List Char → Bool

/-- Model of lines 262-266 of the source: the export path defaults to the
directory of the blend file when one is saved, and to the user's Desktop
otherwise. -/
def resolveExportPath (export_path : Option (List Char))
    (blendDir : Option (List Char)) (desktop : List Char) : List Char :=
  match export_path with
  | some p => p
  | none =>
    match blendDir with
    | some d => d
    | none => desktop

/-- The objects of a collection that are in the current scene: the filter
applied on lines 302-306 (`if obj.name in bpy.context.scene.objects`). -/
def validObjects (sceneObjs : List String) (c : Collection) : List String :=
  c.objects.filter (fun o => sceneObjs.contains o)

/-- Model of lines 317-331 of the source: the directory an eligible
collection is exported into, together with the `os.makedirs` events this
emits.  With `use_collection_structure` off, or for a collection with no
parents, this is the export path itself and no directory is created;
otherwise it is the export path joined with the reversed hierarchy, and
that directory is created.  `none` means the parent walk did not finish
within the fuel. -/
def computeDir (ctx : Ctx) (c : Collection) : Option (List Event × List Char) :=
  if ctx.use_structure then
    match get_collection_hierarchy_path ctx.cols ctx.fuel c with
    | none => none
    | some hierarchy =>
      if hierarchy.isEmpty then some ([], ctx.export_path)
      else
        let subfolder_path := joinMany hierarchy.reverse
        let final_export_path := joinTwo ctx.export_path subfolder_path
        some ([Event.osMakedirs final_export_path], final_export_path)
  else some ([], ctx.export_path)

/-- Model of one iteration of the export loop (lines 284-350 of the
source) for collection `c`, threading the host state.  Mirrors, in order:
the `export_gltf` flag check, the empty-collection check, the
`select_all(action='DESELECT')` call, the selection of the collection's
in-scene objects, the valid-objects check, setting the active object,
the directory computation, and the `bpy.ops.export_scene.gltf` call
wrapped in `try/except` (a failure is recorded in the event but only a
success increments `exported_count`). -/
def processCollection (ctx : Ctx) (st : ExportState) (c : Collection) :
    Option ExportState :=
  if !(flagOf c) then some st
  else if c.objects.isEmpty then some st
  else
    let st1 : ExportState :=
      { st with selected := [],
                trace := st.trace ++ [Event.opSelectAll "DESELECT"] }
    let objects_in_collection := validObjects ctx.sceneObjs c
    let st2 : ExportState := { st1 with selected := objects_in_collection }
    if objects_in_collection.isEmpty then some st2
    else
      let st3 : ExportState := { st2 with active := objects_in_collection.head? }
      match computeDir ctx c with
      | none => none
      | some (dirEvents, final_export_path) =>
        let filepath :=
          joinTwo final_export_path (sanitizeChars c.name.data ++ gltfExt)
        let ok := ctx.exOk c.name filepath
        some { st3 with
          trace := st3.trace ++ dirEvents ++
            [Event.opExportGltf c.name filepath true true ok],
          exported_count := st3.exported_count + (if ok then 1 else 0) }

/-- The export loop of lines 284-350: fold `processCollection` over
`bpy.data.collections`, stopping with `none` if an iteration diverges. -/
def runLoop (ctx : Ctx) : ExportState → List Collection → Option ExportState
  | st, [] => some st
  | st, c :: rest =>
    match processCollection ctx st c with
    | none => none
    | some st' => runLoop ctx st' rest

/-- The `mode_set` events of lines 273-276: the code switches to object
mode only when there is an active object and its mode is not `OBJECT`. -/
def modeSwitchEvents (origActive : Option String) (origMode : String) : List Event :=
  if origActive.isSome && origMode != "OBJECT" then [Event.opModeSet "OBJECT"]
  else []

/-- The `mode_set` events of lines 359-365 restoring the original mode
(the call is wrapped in `try/except`; only the attempt is recorded). -/
def restoreModeEvents (origActive : Option String) (origMode : String) : List Event :=
  if origActive.isSome && origMode != "OBJECT" then [Event.opModeSet origMode]
  else []

/-- Model of `export_collections_to_gltf` (lines 252-368 of the source):
record the mode switch and the initial deselect, run the export loop over
all collections, then restore the original selection (each originally
selected object still in the scene is re-selected), the original active
object, and the original mode.  `origSel`, `origActive` and `origMode`
are the values the code snapshots on lines 269-271.  `initState` is the
state right before the loop: selection cleared (line 279), the possible
mode switch and the initial deselect recorded. -/
def initState (origActive : Option String) (origMode : String) : ExportState :=
  { selected := [], active := origActive,
    trace := modeSwitchEvents origActive origMode ++ [Event.opSelectAll "DESELECT"],
    exported_count := 0 }

/-- Model of `export_collections_to_gltf` (lines 252-368 of the source),
continued: run the loop from the initial state, then restore the original
selection (each originally selected object still in the scene is
re-selected, lines 353-356), the original active object (line 357), and
the original mode (lines 359-365). -/
def export_collections_to_gltf (ctx : Ctx) (origSel : List String)
    (origActive : Option String) (origMode : String) : Option ExportState :=
  match runLoop ctx (initState origActive origMode) ctx.cols with
  | none => none
  | some st =>
    some { st with
      selected := origSel.filter (fun o => ctx.sceneObjs.contains o),
      active := origActive,
      trace := st.trace ++ [Event.opSelectAll "DESELECT"] ++
        restoreModeEvents origActive origMode }

/-- Model of `GLTF_OT_toggle_collection.execute` (lines 125-136 of the
source): when a collection with the given name exists, its `export_gltf`
property is set to the negation of its previous value (an absent property
reading as `False`); otherwise nothing changes.  Blender keys
`bpy.data.collections` by name, so updating every entry with that name is
the update of the single collection the code fetches. -/
def toggle_collection_execute (cols : List Collection) (collection_name : String) :
    List Collection :=
  if cols.any (fun c => c.name == collection_name) then
    cols.map (fun c =>
      if c.name == collection_name then
        { c with export_gltf := some (!(c.export_gltf.getD false)) }
      else c)
  else cols

/-- The host-exporter invocations recorded in a trace, as pairs of the
collection being exported and the file path passed to the operator. -/
def invocations (tr : List Event) : List (String × List Char) :=
  tr.filterMap (fun e =>
    match e with
    | Event.opExportGltf n fp _ _ _ => some (n, fp)
    | _ => none)

/-- The number of successful host-exporter invocations in a trace. -/
def successCount (tr : List Event) : Nat :=
  (tr.filter (fun e =>
    match e with
    | Event.opExportGltf _ _ _ _ ok => ok
    | _ => false)).length

/-- Whether an event touches the file system. -/
def touchesFileSystem : Event → Bool
  | Event.osMakedirs _ => true
  | Event.opExportGltf _ _ _ _ _ => true
  | Event.fileWrite _ => true
  | _ => false

/-- Whether an event is a directory creation or a host-exporter call. -/
def isMakedirsOrExport : Event → Bool
  | Event.osMakedirs _ => true
  | Event.opExportGltf _ _ _ _ _ => true
  | _ => false

/-- The trace events and count increment one loop iteration contributes,
computed from the collection alone (the iteration's effect on the trace
and the counter does not depend on the incoming state). -/
def stepDelta (ctx : Ctx) (c : Collection) : Option (List Event × Nat) :=
  if !(flagOf c) then some ([], 0)
  else if c.objects.isEmpty then some ([], 0)
  else if (validObjects ctx.sceneObjs c).isEmpty then
    some ([Event.opSelectAll "DESELECT"], 0)
  else
    match computeDir ctx c with
    | none => none
    | some (dirEvents, final_export_path) =>
      let filepath :=
        joinTwo final_export_path (sanitizeChars c.name.data ++ gltfExt)
      let ok := ctx.exOk c.name filepath
      some (Event.opSelectAll "DESELECT" ::
              (dirEvents ++ [Event.opExportGltf c.name filepath true true ok]),
            if ok then 1 else 0)

/-- The trace contribution of one iteration, empty when it diverges. -/
def deltaTrace (ctx : Ctx) (c : Collection) : List Event :=
  ((stepDelta ctx c).map Prod.fst).getD []

/-- The counter contribution of one iteration, zero when it diverges. -/
def deltaCount (ctx : Ctx) (c : Collection) : Nat :=
  ((stepDelta ctx c).map Prod.snd).getD 0

/-- The host-exporter invocation a collection gives rise to, when it is
flagged, has an object in the scene, and its directory is computable. -/
def invocationOf (ctx : Ctx) (c : Collection) : Option (String × List Char) :=
  if flagOf c && !((validObjects ctx.sceneObjs c).isEmpty) then
    match computeDir ctx c with
    | none => none
    | some (_, final_export_path) =>
      some (c.name, joinTwo final_export_path (sanitizeChars c.name.data ++ gltfExt))
  else none

/-- Concatenated trace contributions of a list of collections. -/
def tracesOf (ctx : Ctx) : List Collection → List Event
  | [] => []
  | c :: rest => deltaTrace ctx c ++ tracesOf ctx rest

/-- Summed counter contributions of a list of collections. -/
def countsOf (ctx : Ctx) : List Collection → Nat
  | [] => 0
  | c :: rest => deltaCount ctx c + countsOf ctx rest

theorem computeDir_shape (ctx : Ctx) (c : Collection) (evs : List Event)
    (fin : List Char) (h : computeDir ctx c = some (evs, fin)) :
    evs = [] ∨ evs = [Event.osMakedirs fin] := by
  unfold computeDir at h
  by_cases hu : ctx.use_structure = true
  · rw [if_pos hu] at h
    cases hg : get_collection_hierarchy_path ctx.cols ctx.fuel c with
    | none => rw [hg] at h; simp at h
    | some hierarchy =>
      rw [hg] at h
      by_cases he : hierarchy.isEmpty = true
      · simp only [he, if_true, Option.some.injEq, Prod.mk.injEq] at h
        exact Or.inl h.1.symm
      · simp only [he, Bool.false_eq_true, if_false, Option.some.injEq,
          Prod.mk.injEq] at h
        exact Or.inr (by rw [← h.1, ← h.2])
  · rw [if_neg hu] at h
    simp only [Option.some.injEq, Prod.mk.injEq] at h
    exact Or.inl h.1.symm

theorem processCollection_delta (ctx : Ctx) (st : ExportState) (c : Collection)
    (st' : ExportState) (h : processCollection ctx st c = some st') :
    ∃ d, stepDelta ctx c = some d ∧
      st'.trace = st.trace ++ d.1 ∧
      st'.exported_count = st.exported_count + d.2 := by
  cases hf : flagOf c with
  | false =>
    simp only [processCollection, hf, Bool.not_false, if_true, Option.some.injEq] at h
    subst h
    exact ⟨([], 0), by simp [stepDelta, hf], by simp, by simp⟩
  | true =>
    cases he : c.objects.isEmpty with
    | true =>
      simp only [processCollection, hf, he, Bool.not_true, Bool.false_eq_true,
        if_false, if_true, Option.some.injEq] at h
      subst h
      exact ⟨([], 0), by simp [stepDelta, hf, he], by simp, by simp⟩
    | false =>
      cases hv : (validObjects ctx.sceneObjs c).isEmpty with
      | true =>
        simp only [processCollection, hf, he, hv, Bool.not_true, Bool.false_eq_true,
          if_false, if_true, Option.some.injEq] at h
        subst h
        exact ⟨([Event.opSelectAll "DESELECT"], 0),
          by simp [stepDelta, hf, he, hv], by simp, by simp⟩
      | false =>
        cases hcd : computeDir ctx c with
        | none =>
          simp [processCollection, hf, he, hv, hcd] at h
        | some p =>
          obtain ⟨evs, fin⟩ := p
          simp only [processCollection, hf, he, hv, hcd, Bool.not_true,
            Bool.false_eq_true, if_false, Option.some.injEq] at h
          subst h
          refine ⟨(Event.opSelectAll "DESELECT" ::
              (evs ++ [Event.opExportGltf c.name
                (joinTwo fin (sanitizeChars c.name.data ++ gltfExt)) true true
                (ctx.exOk c.name (joinTwo fin (sanitizeChars c.name.data ++ gltfExt)))]),
              if ctx.exOk c.name (joinTwo fin (sanitizeChars c.name.data ++ gltfExt))
                then 1 else 0), ?_, ?_, ?_⟩
          · simp [stepDelta, hf, he, hv, hcd]
          · simp
          · simp

theorem processCollection_isSome (ctx : Ctx) (st : ExportState) (c : Collection) :
    (processCollection ctx st c).isSome = (stepDelta ctx c).isSome := by
  cases hf : flagOf c with
  | false => simp [processCollection, stepDelta, hf]
  | true =>
    cases he : c.objects.isEmpty with
    | true => simp [processCollection, stepDelta, hf, he]
    | false =>
      cases hv : (validObjects ctx.sceneObjs c).isEmpty with
      | true => simp [processCollection, stepDelta, hf, he, hv]
      | false =>
        cases hcd : computeDir ctx c with
        | none => simp [processCollection, stepDelta, hf, he, hv, hcd]
        | some p =>
          obtain ⟨evs, fin⟩ := p
          simp [processCollection, stepDelta, hf, he, hv, hcd]

theorem runLoop_delta (ctx : Ctx) :
    ∀ (l : List Collection) (st st' : ExportState),
      runLoop ctx st l = some st' →
      st'.trace = st.trace ++ tracesOf ctx l ∧
      st'.exported_count = st.exported_count + countsOf ctx l ∧
      ∀ c ∈ l, (stepDelta ctx c).isSome = true
  | [], st, st', h => by
    simp only [runLoop, Option.some.injEq] at h
    subst h
    simp [tracesOf, countsOf]
  | c :: rest, st, st', h => by
    rw [runLoop] at h
    cases hp : processCollection ctx st c with
    | none => rw [hp] at h; simp at h
    | some st1 =>
      rw [hp] at h
      obtain ⟨d, hd, htr, hcnt⟩ := processCollection_delta ctx st c st1 hp
      obtain ⟨htr', hcnt', hall⟩ := runLoop_delta ctx rest st1 st' h
      refine ⟨?_, ?_, ?_⟩
      · rw [htr', htr, tracesOf]
        have : deltaTrace ctx c = d.1 := by rw [deltaTrace, hd]; rfl
        rw [this, List.append_assoc]
      · rw [hcnt', hcnt, countsOf]
        have : deltaCount ctx c = d.2 := by rw [deltaCount, hd]; rfl
        rw [this, Nat.add_assoc]
      · intro c' hc'
        rcases List.mem_cons.mp hc' with h1 | h2
        · rw [h1, hd]; rfl
        · exact hall c' h2

theorem runLoop_isSome (ctx : Ctx) :
    ∀ (l : List Collection) (st : ExportState),
      (∀ c ∈ l, (stepDelta ctx c).isSome = true) →
      (runLoop ctx st l).isSome = true
  | [], st, _ => by simp [runLoop]
  | c :: rest, st, h => by
    rw [runLoop]
    cases hp : processCollection ctx st c with
    | none =>
      have h1 := processCollection_isSome ctx st c
      rw [hp] at h1
      have h2 := h c (List.mem_cons_self c rest)
      rw [← h1] at h2
      simp at h2
    | some st1 =>
      exact runLoop_isSome ctx rest st1 (fun c' hc' => h c' (List.mem_cons_of_mem c hc'))

theorem run_spec (ctx : Ctx) (origSel : List String) (origActive : Option String)
    (origMode : String) (st : ExportState)
    (h : export_collections_to_gltf ctx origSel origActive origMode = some st) :
    st.trace = modeSwitchEvents origActive origMode ++ [Event.opSelectAll "DESELECT"] ++
      tracesOf ctx ctx.cols ++ [Event.opSelectAll "DESELECT"] ++
      restoreModeEvents origActive origMode ∧
    st.exported_count = countsOf ctx ctx.cols ∧
    st.selected = origSel.filter (fun o => ctx.sceneObjs.contains o) ∧
    st.active = origActive ∧
    ∀ c ∈ ctx.cols, (stepDelta ctx c).isSome = true := by
  unfold export_collections_to_gltf at h
  cases hr : runLoop ctx (initState origActive origMode) ctx.cols with
  | none => rw [hr] at h; simp at h
  | some st0 =>
    rw [hr] at h
    simp only [Option.some.injEq] at h
    subst h
    obtain ⟨htr, hcnt, hall⟩ :=
      runLoop_delta ctx ctx.cols (initState origActive origMode) st0 hr
    refine ⟨?_, ?_, rfl, rfl, hall⟩
    · simp only [htr, initState, List.append_assoc]
    · simp only [hcnt, initState, Nat.zero_add]

theorem run_isSome (ctx : Ctx) (origSel : List String) (origActive : Option String)
    (origMode : String)
    (h : ∀ c ∈ ctx.cols, (stepDelta ctx c).isSome = true) :
    (export_collections_to_gltf ctx origSel origActive origMode).isSome = true := by
  unfold export_collections_to_gltf
  have h1 := runLoop_isSome ctx ctx.cols (initState origActive origMode) h
  cases hr : runLoop ctx (initState origActive origMode) ctx.cols with
  | none => rw [hr] at h1; simp at h1
  | some st0 => rfl

theorem invocations_append (a b : List Event) :
    invocations (a ++ b) = invocations a ++ invocations b :=
  List.filterMap_append a b _

theorem invocations_deltaTrace (ctx : Ctx) (c : Collection) :
    invocations (deltaTrace ctx c) = (invocationOf ctx c).toList := by
  cases hf : flagOf c with
  | false => simp [deltaTrace, stepDelta, invocationOf, invocations, hf]
  | true =>
    cases he : c.objects.isEmpty with
    | true =>
      have hv : (validObjects ctx.sceneObjs c).isEmpty = true := by
        rw [List.isEmpty_iff] at he ⊢
        simp [validObjects, he]
      simp [deltaTrace, stepDelta, invocationOf, invocations, hf, he, hv]
    | false =>
      cases hv : (validObjects ctx.sceneObjs c).isEmpty with
      | true => simp [deltaTrace, stepDelta, invocationOf, invocations, hf, he, hv]
      | false =>
        cases hcd : computeDir ctx c with
        | none => simp [deltaTrace, stepDelta, invocationOf, invocations, hf, he, hv, hcd]
        | some p =>
          obtain ⟨evs, fin⟩ := p
          rcases computeDir_shape ctx c evs fin hcd with hevs | hevs <;>
            simp [deltaTrace, stepDelta, invocationOf, invocations, hf, he, hv, hcd, hevs]

theorem invocations_tracesOf (ctx : Ctx) :
    ∀ l : List Collection,
      invocations (tracesOf ctx l) = l.filterMap (invocationOf ctx)
  | [] => by simp [tracesOf, invocations]
  | c :: rest => by
    rw [tracesOf, invocations_append, invocations_deltaTrace,
      invocations_tracesOf ctx rest, List.filterMap_cons]
    cases invocationOf ctx c <;> simp

theorem invocations_modeSwitchEvents (origActive : Option String) (origMode : String) :
    invocations (modeSwitchEvents origActive origMode) = [] := by
  unfold modeSwitchEvents
  split <;> simp [invocations]

theorem invocations_restoreModeEvents (origActive : Option String) (origMode : String) :
    invocations (restoreModeEvents origActive origMode) = [] := by
  unfold restoreModeEvents
  split <;> simp [invocations]

theorem run_invocations (ctx : Ctx) (origSel : List String) (origActive : Option String)
    (origMode : String) (st : ExportState)
    (h : export_collections_to_gltf ctx origSel origActive origMode = some st) :
    invocations st.trace = ctx.cols.filterMap (invocationOf ctx) := by
  obtain ⟨htr, _, _, _, _⟩ := run_spec ctx origSel origActive origMode st h
  rw [htr]
  simp only [invocations_append, invocations_modeSwitchEvents,
    invocations_restoreModeEvents, invocations_tracesOf]
  simp [invocations]

theorem successCount_append (a b : List Event) :
    successCount (a ++ b) = successCount a + successCount b := by
  unfold successCount
  rw [List.filter_append, List.length_append]

theorem successCount_deltaTrace (ctx : Ctx) (c : Collection) :
    successCount (deltaTrace ctx c) = deltaCount ctx c := by
  cases hf : flagOf c with
  | false => simp [deltaTrace, deltaCount, stepDelta, successCount, hf]
  | true =>
    cases he : c.objects.isEmpty with
    | true => simp [deltaTrace, deltaCount, stepDelta, successCount, hf, he]
    | false =>
      cases hv : (validObjects ctx.sceneObjs c).isEmpty with
      | true => simp [deltaTrace, deltaCount, stepDelta, successCount, hf, he, hv]
      | false =>
        cases hcd : computeDir ctx c with
        | none => simp [deltaTrace, deltaCount, stepDelta, successCount, hf, he, hv, hcd]
        | some p =>
          obtain ⟨evs, fin⟩ := p
          rcases computeDir_shape ctx c evs fin hcd with hevs | hevs <;>
            rcases hok : ctx.exOk c.name
              (joinTwo fin (sanitizeChars c.name.data ++ gltfExt)) with _ | _ <;>
            simp [deltaTrace, deltaCount, stepDelta, successCount, hf, he, hv, hcd, hevs, hok]

theorem successCount_tracesOf (ctx : Ctx) :
    ∀ l : List Collection, successCount (tracesOf ctx l) = countsOf ctx l
  | [] => by simp [tracesOf, countsOf, successCount]
  | c :: rest => by
    rw [tracesOf, successCount_append, successCount_deltaTrace,
      successCount_tracesOf ctx rest, countsOf]

theorem successCount_modeSwitchEvents (origActive : Option String) (origMode : String) :
    successCount (modeSwitchEvents origActive origMode) = 0 := by
  unfold modeSwitchEvents
  split <;> simp [successCount]

theorem successCount_restoreModeEvents (origActive : Option String) (origMode : String) :
    successCount (restoreModeEvents origActive origMode) = 0 := by
  unfold restoreModeEvents
  split <;> simp [successCount]

theorem run_count (ctx : Ctx) (origSel : List String) (origActive : Option String)
    (origMode : String) (st : ExportState)
    (h : export_collections_to_gltf ctx origSel origActive origMode = some st) :
    st.exported_count = successCount st.trace := by
  obtain ⟨htr, hcnt, _, _, _⟩ := run_spec ctx origSel origActive origMode st h
  rw [htr, hcnt]
  simp only [successCount_append, successCount_modeSwitchEvents,
    successCount_restoreModeEvents, successCount_tracesOf]
  simp [successCount]

theorem invocationOf_shape (ctx : Ctx) (c : Collection) (p : String × List Char)
    (h : invocationOf ctx c = some p) :
    p.1 = c.name ∧ flagOf c = true ∧ (validObjects ctx.sceneObjs c).isEmpty = false ∧
    ∃ evs fin, computeDir ctx c = some (evs, fin) ∧
      p.2 = joinTwo fin (sanitizeChars c.name.data ++ gltfExt) := by
  unfold invocationOf at h
  cases hf : flagOf c with
  | false => rw [hf] at h; simp at h
  | true =>
    rw [hf] at h
    cases hv : (validObjects ctx.sceneObjs c).isEmpty with
    | true => rw [hv] at h; simp at h
    | false =>
      rw [hv] at h
      cases hcd : computeDir ctx c with
      | none => rw [hcd] at h; simp at h
      | some q =>
        obtain ⟨evs, fin⟩ := q
        rw [hcd] at h
        simp only [Bool.and_self, Bool.not_false, if_true, Option.some.injEq] at h
        refine ⟨?_, rfl, rfl, evs, fin, rfl, ?_⟩
        · rw [← h]
        · rw [← h]

theorem find_parents_spec (cols : List Collection) (depth : String → Nat)
    (Hd : ∀ p ∈ cols, ∀ n : String, p.children.contains n = true → depth p.name < depth n) :
    ∀ (fuel : Nat) (c : Collection) (acc : List String), depth c.name < fuel →
      ∃ l, AncChain cols c.name l ∧
        find_parents cols fuel c acc = some (acc ++ l.map Collection.name)
  | 0, c, acc, hlt => absurd hlt (Nat.not_lt_zero _)
  | Nat.succ fuel, c, acc, hlt => by
    rw [find_parents]
    cases hfind : cols.find? (fun p => p.children.contains c.name) with
    | none =>
      refine ⟨[], AncChain.nil c.name ?_, by simp⟩
      intro p hp
      have h1 := List.find?_eq_none.mp hfind p hp
      simpa using h1
    | some p =>
      have hpm : p ∈ cols := List.mem_of_find?_eq_some hfind
      have hpc : p.children.contains c.name = true := by
        have h1 := List.find?_some hfind
        simpa using h1
      cases hpar : hasParent cols p.name with
      | false =>
        refine ⟨[p], AncChain.cons c.name p [] hpm hpc (AncChain.nil p.name ?_), ?_⟩
        · intro q hq
          have h1 : cols.any (fun g => g.children.contains p.name) = false := hpar
          rw [List.any_eq_false] at h1
          simpa using h1 q hq
        · simp [hpar]
      | true =>
        have hplt : depth p.name < fuel := by
          have h1 := Hd p hpm c.name hpc
          omega
        obtain ⟨l, hch, heq⟩ := find_parents_spec cols depth Hd fuel p (acc ++ [p.name]) hplt
        refine ⟨p :: l, AncChain.cons c.name p l hpm hpc hch, ?_⟩
        simp only [hpar, if_true, heq]
        simp

theorem ancChain_unique (cols : List Collection)
    (Huniq : ∀ p ∈ cols, ∀ q ∈ cols, ∀ n : String,
      p.children.contains n = true → q.children.contains n = true → p = q)
    {n : String} {l₁ l₂ : List Collection}
    (h1 : AncChain cols n l₁) (h2 : AncChain cols n l₂) : l₁ = l₂ := by
  induction h1 generalizing l₂ with
  | nil m h =>
    cases h2 with
    | nil _ _ => rfl
    | cons _ p l hmem hchild htail =>
      rw [h p hmem] at hchild
      exact Bool.noConfusion hchild
  | cons m p l hmem hchild htail ih =>
    cases h2 with
    | nil _ h =>
      rw [h p hmem] at hchild
      exact Bool.noConfusion hchild
    | cons _ q l' hmem' hchild' htail' =>
      obtain rfl := Huniq p hmem q hmem' m hchild hchild'
      rw [ih htail']

theorem hierarchy_of_chain (cols : List Collection) (depth : String → Nat)
    (Hd : ∀ p ∈ cols, ∀ n : String, p.children.contains n = true → depth p.name < depth n)
    (Huniq : ∀ p ∈ cols, ∀ q ∈ cols, ∀ n : String,
      p.children.contains n = true → q.children.contains n = true → p = q)
    (fuel : Nat) (c : Collection) (l : List Collection)
    (hch : AncChain cols c.name l) (hlt : depth c.name < fuel) :
    get_collection_hierarchy_path cols fuel c = some (l.map Collection.name) := by
  obtain ⟨l', hch', heq⟩ := find_parents_spec cols depth Hd fuel c [] hlt
  rw [get_collection_hierarchy_path, heq, List.nil_append,
    ancChain_unique cols Huniq hch hch']

theorem takeWhile_append_stop {α : Type} (p : α → Bool) :
    ∀ (l : List α) (y : α) (t : List α), (∀ x ∈ l, p x = true) → p y = false →
      (l ++ y :: t).takeWhile p = l
  | [], y, t, _, hy => by simp [List.takeWhile_cons, hy]
  | a :: l, y, t, hall, hy => by
    have ha := hall a (List.mem_cons_self a l)
    simp only [List.cons_append, List.takeWhile_cons, ha, if_true,
      takeWhile_append_stop p l y t (fun x hx => hall x (List.mem_cons_of_mem a hx)) hy]

theorem takeWhile_all {α : Type} (p : α → Bool) :
    ∀ l : List α, (∀ x ∈ l, p x = true) → l.takeWhile p = l
  | [], _ => rfl
  | a :: l, hall => by
    have ha := hall a (List.mem_cons_self a l)
    simp only [List.takeWhile_cons, ha, if_true,
      takeWhile_all p l (fun x hx => hall x (List.mem_cons_of_mem a hx))]

theorem mem_sanitizeChars_keep (s : List Char) (x : Char)
    (h : x ∈ sanitizeChars s) : keepChar x = true := by
  unfold sanitizeChars dropTrailingWs at h
  rw [List.mem_reverse] at h
  have h1 : x ∈ (s.filter keepChar).reverse :=
    (List.dropWhile_sublist _).mem h
  rw [List.mem_reverse, List.mem_filter] at h1
  exact h1.2

theorem sanitizeChars_no_slash (s : List Char) (x : Char)
    (h : x ∈ sanitizeChars s) : (x != '/') = true := by
  have h1 := mem_sanitizeChars_keep s x h
  by_cases hx : x = '/'
  · rw [hx] at h1
    exact absurd h1 (by decide)
  · simpa using hx

theorem lastComp_joinTwo (a b : List Char) (hne : b ≠ [])
    (hns : ∀ x ∈ b, (x != '/') = true) : lastComp (joinTwo a b) = b := by
  have hbrev : ∀ x ∈ b.reverse, (x != '/') = true := by
    intro x hx
    exact hns x (List.mem_reverse.mp hx)
  have hslash : (('/' : Char) != '/') = false := by decide
  unfold joinTwo
  by_cases hb : b.head? = some '/'
  · exfalso
    obtain ⟨c, t, rfl⟩ := List.exists_cons_of_ne_nil hne
    simp only [List.head?_cons, Option.some.injEq] at hb
    have := hns c (List.mem_cons_self c t)
    rw [hb] at this
    exact absurd this (by decide)
  · rw [if_neg hb]
    by_cases ha : a = []
    · rw [if_pos ha]
      unfold lastComp
      rw [takeWhile_all _ b.reverse hbrev, List.reverse_reverse]
    · rw [if_neg ha]
      by_cases hl : a.getLast? = some '/'
      · rw [if_pos hl]
        obtain ⟨a', ha'⟩ : ∃ a', a.reverse = '/' :: a' := by
          cases har : a.reverse with
          | nil =>
            rw [List.reverse_eq_nil_iff] at har
            exact absurd har ha
          | cons c t =>
            have h2 : a.getLast? = some c := by
              rw [← List.head?_reverse, har]
              rfl
            rw [hl] at h2
            obtain rfl : c = '/' := (Option.some.inj h2).symm
            exact ⟨t, rfl⟩
        unfold lastComp
        rw [List.reverse_append, ha',
          takeWhile_append_stop _ b.reverse '/' a' hbrev hslash,
          List.reverse_reverse]
      · rw [if_neg hl]
        unfold lastComp
        rw [List.reverse_append, List.reverse_cons, List.append_assoc,
          List.singleton_append,
          takeWhile_append_stop _ b.reverse '/' a.reverse hbrev hslash,
          List.reverse_reverse]

theorem gltfExt_no_slash : ∀ x ∈ gltfExt, (x != '/') = true := by decide

theorem filepath_lastComp (d : List Char) (s : List Char) :
    lastComp (joinTwo d (sanitizeChars s ++ gltfExt)) = sanitizeChars s ++ gltfExt := by
  apply lastComp_joinTwo
  · simp [gltfExt]
  · intro x hx
    rcases List.mem_append.mp hx with h1 | h1
    · exact sanitizeChars_no_slash s x h1
    · exact gltfExt_no_slash x h1

theorem valid_isEmpty_of_objects (sceneObjs : List String) (c : Collection)
    (h : c.objects.isEmpty = true) : (validObjects sceneObjs c).isEmpty = true := by
  rw [List.isEmpty_iff] at h ⊢
  simp [validObjects, h]

theorem stepDelta_computeDir_isSome (ctx : Ctx) (c : Collection)
    (hstep : (stepDelta ctx c).isSome = true) (hflag : flagOf c = true)
    (hv : (validObjects ctx.sceneObjs c).isEmpty = false) :
    (computeDir ctx c).isSome = true := by
  have he : c.objects.isEmpty = false := by
    cases hex : c.objects.isEmpty with
    | false => rfl
    | true =>
      rw [valid_isEmpty_of_objects ctx.sceneObjs c hex] at hv
      exact Bool.noConfusion hv
  cases hcd : computeDir ctx c with
  | none =>
    rw [stepDelta, hflag, he, hv, hcd] at hstep
    simp at hstep
  | some p => rfl

theorem invocationOf_eq_some (ctx : Ctx) (c : Collection) (evs : List Event)
    (fin : List Char) (hflag : flagOf c = true)
    (hv : (validObjects ctx.sceneObjs c).isEmpty = false)
    (hcd : computeDir ctx c = some (evs, fin)) :
    invocationOf ctx c =
      some (c.name, joinTwo fin (sanitizeChars c.name.data ++ gltfExt)) := by
  rw [invocationOf, hflag, hv, hcd]
  rfl

/-- Collection used in the counterexample to claim C1: it is flagged for
export and contains an object, but that object is not in the current
scene. -/
def c1Col : Collection :=
  { name := "A", export_gltf := some true, objects := ["o"], children := [] }

/-- Run parameters for the counterexample to claim C1: the current scene
contains no objects. -/
def c1Ctx : Ctx :=
  { fuel := 1, cols := [c1Col], sceneObjs := [], use_structure := false,
    export_path := "/out".data, exOk := fun _ _ => true }

/-- C1, counterexample: a collection whose `export_gltf` property is
`True` and which contains at least one object, yet for which the batch
run never invokes the host exporter, because none of its objects is in
the current scene (lines 302-311 of the source skip it).  This refutes
the claim that every flagged collection with at least one object is
exported. -/
theorem C1_counterexample :
    flagOf c1Col = true ∧ c1Col.objects ≠ [] ∧
    (export_collections_to_gltf c1Ctx [] none "OBJECT").map
      (fun s => invocations s.trace) = some [] :=
  ⟨by decide, by decide, by decide⟩

/-- C1 (amended): during a batch export run, every collection whose
`export_gltf` custom property is `True` and which contains at least one
object that is in the current scene is exported to its own glTF file
(the host exporter operator is invoked with the file path obtained by
joining the collection's export directory with its sanitized name plus
`.gltf`), and no other collection is exported. -/
theorem C1_flagged_scene_collections_exported (ctx : Ctx) (origSel : List String)
    (origActive : Option String) (origMode : String) (st : ExportState)
    (c : Collection) (evs : List Event) (fin : List Char) (fp2 : List Char)
    (hrun : export_collections_to_gltf ctx origSel origActive origMode = some st)
    (hnodup : (ctx.cols.map Collection.name).Nodup)
    (hc : c ∈ ctx.cols) :
    (flagOf c = true → (validObjects ctx.sceneObjs c).isEmpty = false →
      (computeDir ctx c).isSome = true) ∧
    (flagOf c = true → (validObjects ctx.sceneObjs c).isEmpty = false →
      computeDir ctx c = some (evs, fin) →
      (c.name, joinTwo fin (sanitizeChars c.name.data ++ gltfExt)) ∈
        invocations st.trace) ∧
    ((flagOf c = false ∨ (validObjects ctx.sceneObjs c).isEmpty = true) →
      (c.name, fp2) ∉ invocations st.trace) := by
  obtain ⟨_, _, _, _, hall⟩ := run_spec ctx origSel origActive origMode st hrun
  refine ⟨?_, ?_, ?_⟩
  · intro hflag hv
    exact stepDelta_computeDir_isSome ctx c (hall c hc) hflag hv
  · intro hflag hv hcd
    rw [run_invocations ctx origSel origActive origMode st hrun]
    exact List.mem_filterMap.mpr
      ⟨c, hc, invocationOf_eq_some ctx c evs fin hflag hv hcd⟩
  · intro hineligible hmem
    rw [run_invocations ctx origSel origActive origMode st hrun] at hmem
    obtain ⟨c', hc', hsome⟩ := List.mem_filterMap.mp hmem
    obtain ⟨hname, hflag', hv', _⟩ := invocationOf_shape ctx c' _ hsome
    obtain rfl : c' = c :=
      List.inj_on_of_nodup_map hnodup hc' hc hname.symm
    rcases hineligible with h1 | h1
    · rw [h1] at hflag'
      exact Bool.noConfusion hflag'
    · rw [h1] at hv'
      exact Bool.noConfusion hv'

/-- Collection used in the witnesses for claims C1 and C2: flagged, with
its object in the scene. -/
def w1Col : Collection :=
  { name := "A", export_gltf := some true, objects := ["o"], children := [] }

/-- Collection used in the witnesses for claims C1 and C2: not flagged. -/
def w1ColB : Collection :=
  { name := "B", export_gltf := none, objects := ["o"], children := [] }

/-- Run parameters for the witnesses of claims C1 and C2. -/
def w1Ctx : Ctx :=
  { fuel := 1, cols := [w1Col, w1ColB], sceneObjs := ["o"], use_structure := false,
    export_path := "/out".data, exOk := fun _ _ => true }

/-- Final state of the witness run for claims C1 and C2. -/
def w1St : ExportState :=
  { selected := [], active := none,
    trace := [Event.opSelectAll "DESELECT", Event.opSelectAll "DESELECT",
      Event.opExportGltf "A" "/out/A.gltf".data true true true,
      Event.opSelectAll "DESELECT"],
    exported_count := 1 }

theorem C1_witness :
    (flagOf w1Col = true → (validObjects w1Ctx.sceneObjs w1Col).isEmpty = false →
      (computeDir w1Ctx w1Col).isSome = true) ∧
    (flagOf w1Col = true → (validObjects w1Ctx.sceneObjs w1Col).isEmpty = false →
      computeDir w1Ctx w1Col = some ([], "/out".data) →
      (w1Col.name, joinTwo "/out".data (sanitizeChars w1Col.name.data ++ gltfExt)) ∈
        invocations w1St.trace) ∧
    ((flagOf w1Col = false ∨ (validObjects w1Ctx.sceneObjs w1Col).isEmpty = true) →
      (w1Col.name, "/zzz".data) ∉ invocations w1St.trace) :=
  C1_flagged_scene_collections_exported w1Ctx [] none "OBJECT" w1St w1Col []
    "/out".data "/zzz".data (by decide) (by decide) (by decide)

/-- C2: the export flag gates inclusion: a collection whose `export_gltf`
custom property is absent or `False` at the start of a batch export run
is never exported during that run (no host-exporter invocation carries
its name). -/
theorem C2_unflagged_never_exported (ctx : Ctx) (origSel : List String)
    (origActive : Option String) (origMode : String) (st : ExportState)
    (c : Collection) (fp : List Char)
    (hrun : export_collections_to_gltf ctx origSel origActive origMode = some st)
    (hnodup : (ctx.cols.map Collection.name).Nodup)
    (hc : c ∈ ctx.cols) (hflag : c.export_gltf.getD false = false) :
    (c.name, fp) ∉ invocations st.trace := by
  intro hmem
  rw [run_invocations ctx origSel origActive origMode st hrun] at hmem
  obtain ⟨c', hc', hsome⟩ := List.mem_filterMap.mp hmem
  obtain ⟨hname, hflag', _, _⟩ := invocationOf_shape ctx c' _ hsome
  obtain rfl : c' = c :=
    List.inj_on_of_nodup_map hnodup hc' hc hname.symm
  rw [flagOf, hflag] at hflag'
  exact Bool.noConfusion hflag'

theorem C2_witness : (w1ColB.name, "/out/B.gltf".data) ∉ invocations w1St.trace :=
  C2_unflagged_never_exported w1Ctx [] none "OBJECT" w1St w1ColB
    "/out/B.gltf".data (by decide) (by decide) (by decide) (by decide)

/-- First collection of the counterexample to claim C3: its name
sanitizes to `A`. -/
def c3ColA : Collection :=
  { name := "A!", export_gltf := some true, objects := ["o"], children := [] }

/-- Second collection of the counterexample to claim C3: a distinct
collection whose name also sanitizes to `A`. -/
def c3ColB : Collection :=
  { name := "A?", export_gltf := some true, objects := ["o"], children := [] }

/-- Run parameters for the counterexample to claim C3. -/
def c3Ctx : Ctx :=
  { fuel := 1, cols := [c3ColA, c3ColB], sceneObjs := ["o"], use_structure := false,
    export_path := "/out".data, exOk := fun _ _ => true }

/-- C3, counterexample: two distinct flagged, non-empty collections,
`A!` and `A?`, are both exported in the same batch run with the SAME
output file path `/out/A.gltf`, because line 334 of the source strips
non-alphanumeric characters from the collection name before building the
filename.  This refutes the claim that any two distinct flagged,
non-empty collections get distinct output file paths. -/
theorem C3_counterexample :
    c3ColA ≠ c3ColB ∧ flagOf c3ColA = true ∧ flagOf c3ColB = true ∧
    c3ColA.objects ≠ [] ∧ c3ColB.objects ≠ [] ∧
    (export_collections_to_gltf c3Ctx [] none "OBJECT").map
      (fun s => invocations s.trace) =
      some [("A!", "/out/A.gltf".data), ("A?", "/out/A.gltf".data)] :=
  ⟨by decide, by decide, by decide, by decide, by decide, by decide⟩

/-- C3 (amended): each exported collection gets its own glTF file
provided the sanitized collection names differ: for every two host
exporter invocations of the same batch run whose collection names have
different sanitized forms, the output file paths passed to the host
exporter are distinct.  (Two collections whose names sanitize to the
same string can collide, as the counterexample shows.) -/
theorem C3_distinct_sanitized_distinct_paths (ctx : Ctx) (origSel : List String)
    (origActive : Option String) (origMode : String) (st : ExportState)
    (n1 n2 : String) (fp1 fp2 : List Char)
    (hrun : export_collections_to_gltf ctx origSel origActive origMode = some st)
    (h1 : (n1, fp1) ∈ invocations st.trace)
    (h2 : (n2, fp2) ∈ invocations st.trace)
    (hsan : sanitizeChars n1.data ≠ sanitizeChars n2.data) : fp1 ≠ fp2 := by
  rw [run_invocations ctx origSel origActive origMode st hrun] at h1 h2
  obtain ⟨c1, hc1, hs1⟩ := List.mem_filterMap.mp h1
  obtain ⟨hn1, _, _, e1, f1, hcd1, hfp1⟩ := invocationOf_shape ctx c1 _ hs1
  obtain ⟨c2, hc2, hs2⟩ := List.mem_filterMap.mp h2
  obtain ⟨hn2, _, _, e2, f2, hcd2, hfp2⟩ := invocationOf_shape ctx c2 _ hs2
  simp only at hn1 hn2 hfp1 hfp2
  intro heq
  apply hsan
  have hlast : lastComp fp1 = lastComp fp2 := congrArg lastComp heq
  rw [hfp1, hfp2, filepath_lastComp, filepath_lastComp, ← hn1, ← hn2] at hlast
  exact List.append_cancel_right hlast

/-- Run parameters for the witness of claim C3 (amended): two flagged
collections, `A` and `B`, with distinct sanitized names. -/
def w3Ctx : Ctx :=
  { fuel := 1,
    cols := [{ name := "A", export_gltf := some true, objects := ["o"], children := [] },
             { name := "B", export_gltf := some true, objects := ["o"], children := [] }],
    sceneObjs := ["o"], use_structure := false,
    export_path := "/out".data, exOk := fun _ _ => true }

/-- Final state of the witness run for claim C3 (amended). -/
def w3St : ExportState :=
  { selected := [], active := none,
    trace := [Event.opSelectAll "DESELECT", Event.opSelectAll "DESELECT",
      Event.opExportGltf "A" "/out/A.gltf".data true true true,
      Event.opSelectAll "DESELECT",
      Event.opExportGltf "B" "/out/B.gltf".data true true true,
      Event.opSelectAll "DESELECT"],
    exported_count := 2 }

theorem C3_witness : "/out/A.gltf".data ≠ "/out/B.gltf".data :=
  C3_distinct_sanitized_distinct_paths w3Ctx [] none "OBJECT" w3St "A" "B"
    "/out/A.gltf".data "/out/B.gltf".data (by decide) (by decide) (by decide)
    (by decide)

/-- C4: when `use_collection_structure` is enabled, output subfolders
mirror collection nesting: an exported collection whose ancestor chain
(immediate parent first, root last) is `l` has its glTF file written
under the export path joined with the ancestor names ordered from root
down to the immediate parent, and a collection with no parent is written
directly into the export path. -/
theorem C4_structure_mirrors_hierarchy (ctx : Ctx) (origSel : List String)
    (origActive : Option String) (origMode : String) (st : ExportState)
    (depth : String → Nat)
    (Hd : ∀ p ∈ ctx.cols, ∀ n : String,
      p.children.contains n = true → depth p.name < depth n)
    (Huniq : ∀ p ∈ ctx.cols, ∀ q ∈ ctx.cols, ∀ n : String,
      p.children.contains n = true → q.children.contains n = true → p = q)
    (c : Collection) (l : List Collection)
    (hrun : export_collections_to_gltf ctx origSel origActive origMode = some st)
    (hc : c ∈ ctx.cols) (hflag : flagOf c = true)
    (hv : (validObjects ctx.sceneObjs c).isEmpty = false)
    (huse : ctx.use_structure = true)
    (hch : AncChain ctx.cols c.name l)
    (hfuel : depth c.name < ctx.fuel) :
    (c.name, joinTwo
      (if l.isEmpty then ctx.export_path
       else joinTwo ctx.export_path (joinMany ((l.map Collection.name).reverse)))
      (sanitizeChars c.name.data ++ gltfExt)) ∈ invocations st.trace := by
  have hhier : get_collection_hierarchy_path ctx.cols ctx.fuel c =
      some (l.map Collection.name) :=
    hierarchy_of_chain ctx.cols depth Hd Huniq ctx.fuel c l hch hfuel
  rw [run_invocations ctx origSel origActive origMode st hrun]
  by_cases hl : l.isEmpty = true
  · have hml : (l.map Collection.name).isEmpty = true := by
      rw [List.isEmpty_iff] at hl ⊢
      rw [hl]
      rfl
    have hcd : computeDir ctx c = some ([], ctx.export_path) := by
      simp [computeDir, huse, hhier, hml]
    rw [if_pos hl]
    exact List.mem_filterMap.mpr
      ⟨c, hc, invocationOf_eq_some ctx c [] ctx.export_path hflag hv hcd⟩
  · have hml : (l.map Collection.name).isEmpty = false := by
      cases l with
      | nil => exact absurd rfl hl
      | cons x xs => rfl
    have hcd : computeDir ctx c = some
        ([Event.osMakedirs
            (joinTwo ctx.export_path (joinMany ((l.map Collection.name).reverse)))],
          joinTwo ctx.export_path (joinMany ((l.map Collection.name).reverse))) := by
      simp [computeDir, huse, hhier, hml]
    rw [if_neg hl]
    exact List.mem_filterMap.mpr
      ⟨c, hc, invocationOf_eq_some ctx c _ _ hflag hv hcd⟩

/-- Parent collection of the witness hierarchy for claims C4 and C10. -/
def w4Root : Collection :=
  { name := "Root", export_gltf := none, objects := [], children := ["Child"] }

/-- Child collection of the witness hierarchy for claims C4 and C10. -/
def w4Child : Collection :=
  { name := "Child", export_gltf := some true, objects := ["o"], children := [] }

/-- Run parameters for the witness of claim C4. -/
def w4Ctx : Ctx :=
  { fuel := 2, cols := [w4Root, w4Child], sceneObjs := ["o"], use_structure := true,
    export_path := "/out".data, exOk := fun _ _ => true }

/-- Final state of the witness run for claim C4. -/
def w4St : ExportState :=
  { selected := ["o"], active := some "o",
    trace := [Event.opSelectAll "DESELECT", Event.opSelectAll "DESELECT",
      Event.osMakedirs "/out/Root".data,
      Event.opExportGltf "Child" "/out/Root/Child.gltf".data true true true,
      Event.opSelectAll "DESELECT"],
    exported_count := 1 }

/-- Depth measure for the witness hierarchy of claims C4 and C10. -/
def w4Depth : String → Nat := fun n => if n = "Child" then 1 else 0

theorem w4_depth_measure : ∀ p ∈ w4Ctx.cols, ∀ n : String,
    p.children.contains n = true → w4Depth p.name < w4Depth n := by
  intro p hp n hcn
  rcases List.mem_cons.mp hp with rfl | hp2
  · have hn : n = "Child" := by simpa [w4Root] using hcn
    subst hn
    decide
  · rcases List.mem_cons.mp hp2 with rfl | hp3
    · exact Bool.noConfusion hcn
    · cases hp3

theorem w4_unique_parent : ∀ p ∈ w4Ctx.cols, ∀ q ∈ w4Ctx.cols, ∀ n : String,
    p.children.contains n = true → q.children.contains n = true → p = q := by
  intro p hp q hq n hpn hqn
  rcases List.mem_cons.mp hp with rfl | hp2
  · rcases List.mem_cons.mp hq with rfl | hq2
    · rfl
    · rcases List.mem_cons.mp hq2 with rfl | hq3
      · exact Bool.noConfusion hqn
      · cases hq3
  · rcases List.mem_cons.mp hp2 with rfl | hp3
    · exact Bool.noConfusion hpn
    · cases hp3

theorem C4_witness :
    ("Child", "/out/Root/Child.gltf".data) ∈ invocations w4St.trace := by
  have h := C4_structure_mirrors_hierarchy w4Ctx ["o"] (some "o") "OBJECT" w4St
    w4Depth w4_depth_measure w4_unique_parent w4Child [w4Root]
    (by decide) (by decide) (by decide) (by decide) (by decide)
    (AncChain.cons "Child" w4Root [] (by decide) (by decide)
      (AncChain.nil "Root" (by decide)))
    (by decide)
  have he : joinTwo
      (if ([w4Root] : List Collection).isEmpty then w4Ctx.export_path
       else joinTwo w4Ctx.export_path (joinMany (([w4Root].map Collection.name).reverse)))
      (sanitizeChars w4Child.name.data ++ gltfExt) = "/out/Root/Child.gltf".data := by
    decide
  rw [← he]
  exact h

/-- C10: the recursive parent walk terminates on every finite acyclic
collection hierarchy — witnessed by a depth measure under which every
recursive call moves to a strictly shallower ancestor — and it returns
the empty list exactly when the given collection is not a child of any
collection. -/
theorem C10_find_parents_terminates (cols : List Collection) (depth : String → Nat)
    (Hd : ∀ p ∈ cols, ∀ n : String,
      p.children.contains n = true → depth p.name < depth n)
    (fuel : Nat) (c : Collection) (hfuel : depth c.name < fuel) :
    (get_collection_hierarchy_path cols fuel c).isSome = true ∧
    (get_collection_hierarchy_path cols fuel c = some [] ↔
      ∀ p ∈ cols, p.children.contains c.name = false) := by
  obtain ⟨l, hch, heq⟩ := find_parents_spec cols depth Hd fuel c [] hfuel
  rw [get_collection_hierarchy_path, heq, List.nil_append]
  constructor
  · rfl
  · constructor
    · intro hsome
      have hl : l.map Collection.name = [] := Option.some.inj hsome
      rw [List.map_eq_nil_iff] at hl
      subst hl
      cases hch with
      | nil _ h => exact h
    · intro hnp
      have hl : l = [] := by
        cases hch with
        | nil _ _ => rfl
        | cons _ p l' hmem hchild _ =>
          rw [hnp p hmem] at hchild
          exact Bool.noConfusion hchild
      rw [hl]
      rfl

theorem C10_witness :
    (get_collection_hierarchy_path w4Ctx.cols 2 w4Child).isSome = true ∧
    (get_collection_hierarchy_path w4Ctx.cols 2 w4Child = some [] ↔
      ∀ p ∈ w4Ctx.cols, p.children.contains w4Child.name = false) :=
  C10_find_parents_terminates w4Ctx.cols w4Depth w4_depth_measure 2 w4Child
    (by decide)

theorem filterMap_map_fst_sublist {α β γ : Type} (f : α → Option β) (g : β → γ)
    (h : α → γ) (H : ∀ a b, f a = some b → g b = h a) :
    ∀ l : List α, List.Sublist ((l.filterMap f).map g) (l.map h)
  | [] => List.Sublist.slnil
  | a :: l => by
    rw [List.map_cons, List.filterMap_cons]
    cases hf : f a with
    | none => exact List.Sublist.cons (h a) (filterMap_map_fst_sublist f g h H l)
    | some b =>
      rw [List.map_cons, H a b hf]
      exact List.Sublist.cons₂ (h a) (filterMap_map_fst_sublist f g h H l)

/-- C5: exports run synchronously, one at a time, with no retry: the
collection names of the host-exporter invocations of a batch run form a
sublist of the collection list's names (so invocations follow
collection-iteration order), and since collection names are unique, the
exporter is invoked at most once per collection — in particular a
collection whose export fails is never attempted again in that run. -/
theorem C5_sequential_at_most_once (ctx : Ctx) (origSel : List String)
    (origActive : Option String) (origMode : String) (st : ExportState)
    (hrun : export_collections_to_gltf ctx origSel origActive origMode = some st)
    (hnodup : (ctx.cols.map Collection.name).Nodup) :
    List.Sublist ((invocations st.trace).map Prod.fst)
      (ctx.cols.map Collection.name) ∧
    ((invocations st.trace).map Prod.fst).Nodup := by
  have hsub : List.Sublist ((invocations st.trace).map Prod.fst)
      (ctx.cols.map Collection.name) := by
    rw [run_invocations ctx origSel origActive origMode st hrun]
    exact filterMap_map_fst_sublist (invocationOf ctx) Prod.fst Collection.name
      (fun a b hb => (invocationOf_shape ctx a b hb).1) ctx.cols
  exact ⟨hsub, hsub.nodup hnodup⟩

theorem C5_witness :
    List.Sublist ((invocations w3St.trace).map Prod.fst)
      (w3Ctx.cols.map Collection.name) ∧
    ((invocations w3St.trace).map Prod.fst).Nodup :=
  C5_sequential_at_most_once w3Ctx [] none "OBJECT" w3St (by decide) (by decide)

/-- C6: toggling through the UI inverts exactly one flag: when a
collection with the given name exists, executing the toggle operator
sets that collection's `export_gltf` property to the negation of its
previous value (an absent property reading as `False`) and leaves every
other collection unchanged — position by position, only entries carrying
the given name change, and they change exactly by flag negation. -/
theorem C6_toggle_inverts_one_flag (cols : List Collection)
    (collection_name : String) (i : Nat) (c0 : Collection)
    (hin : cols.any (fun c => c.name == collection_name) = true)
    (hi : cols[i]? = some c0) :
    (toggle_collection_execute cols collection_name)[i]? =
      some (if c0.name == collection_name then
        { c0 with export_gltf := some (!(c0.export_gltf.getD false)) }
      else c0) := by
  rw [toggle_collection_execute, if_pos hin, List.getElem?_map, hi]
  rfl

theorem C6_witness :
    (toggle_collection_execute [w1Col, w1ColB] "B")[1]? =
      some (if w1ColB.name == "B" then
        { w1ColB with export_gltf := some (!(w1ColB.export_gltf.getD false)) }
      else w1ColB) :=
  C6_toggle_inverts_one_flag [w1Col, w1ColB] "B" 1 w1ColB (by decide) (by decide)

theorem mem_tracesOf (ctx : Ctx) (e : Event) :
    ∀ l : List Collection, e ∈ tracesOf ctx l → ∃ c ∈ l, e ∈ deltaTrace ctx c
  | [], h => absurd h (by simp [tracesOf])
  | c :: rest, h => by
    rw [tracesOf, List.mem_append] at h
    rcases h with h1 | h2
    · exact ⟨c, List.mem_cons_self c rest, h1⟩
    · obtain ⟨c', hc', he'⟩ := mem_tracesOf ctx e rest h2
      exact ⟨c', List.mem_cons_of_mem c hc', he'⟩

theorem deltaTrace_events (ctx : Ctx) (c : Collection) (e : Event)
    (h : e ∈ deltaTrace ctx c) :
    e = Event.opSelectAll "DESELECT" ∨ isMakedirsOrExport e = true := by
  cases hf : flagOf c with
  | false =>
    rw [deltaTrace, stepDelta, hf] at h
    simp at h
  | true =>
    cases he : c.objects.isEmpty with
    | true =>
      rw [deltaTrace, stepDelta, hf, he] at h
      simp at h
    | false =>
      cases hv : (validObjects ctx.sceneObjs c).isEmpty with
      | true =>
        rw [deltaTrace, stepDelta, hf, he, hv] at h
        simp only [Bool.not_true, Bool.false_eq_true, if_false, if_true,
          Option.map_some, Option.getD_some] at h
        rcases List.mem_singleton.mp h with rfl
        exact Or.inl rfl
      | false =>
        cases hcd : computeDir ctx c with
        | none =>
          rw [deltaTrace, stepDelta, hf, he, hv, hcd] at h
          simp at h
        | some p =>
          obtain ⟨evs, fin⟩ := p
          rw [deltaTrace, stepDelta, hf, he, hv, hcd] at h
          simp only [Bool.not_true, Bool.false_eq_true, if_false,
            Option.map_some, Option.getD_some] at h
          rcases List.mem_cons.mp h with rfl | h2
          · exact Or.inl rfl
          · rw [List.mem_append] at h2
            rcases h2 with h3 | h3
            · rcases computeDir_shape ctx c evs fin hcd with rfl | rfl
              · cases h3
              · rcases List.mem_singleton.mp h3 with rfl
                exact Or.inr rfl
            · rcases List.mem_singleton.mp h3 with rfl
              exact Or.inr rfl

/-- C7: the program does not touch glTF bytes: every trace event of a
batch export run that has a file-system effect is either a directory
creation (`os.makedirs`) or an invocation of the host glTF exporter
operator; the code itself never writes file contents (no `fileWrite`
event ever appears in the trace). -/
theorem C7_only_makedirs_and_exporter (ctx : Ctx) (origSel : List String)
    (origActive : Option String) (origMode : String) (st : ExportState)
    (e : Event)
    (hrun : export_collections_to_gltf ctx origSel origActive origMode = some st)
    (he : e ∈ st.trace) (ht : touchesFileSystem e = true) :
    isMakedirsOrExport e = true := by
  obtain ⟨htr, _, _, _, _⟩ := run_spec ctx origSel origActive origMode st hrun
  rw [htr] at he
  simp only [List.mem_append] at he
  rcases he with ((((h1 | h2) | h3) | h4) | h5)
  · unfold modeSwitchEvents at h1
    split at h1
    · rcases List.mem_singleton.mp h1 with rfl
      exact Bool.noConfusion ht
    · cases h1
  · rcases List.mem_singleton.mp h2 with rfl
    exact Bool.noConfusion ht
  · obtain ⟨c, _, hec⟩ := mem_tracesOf ctx e ctx.cols h3
    rcases deltaTrace_events ctx c e hec with rfl | hok
    · exact Bool.noConfusion ht
    · exact hok
  · rcases List.mem_singleton.mp h4 with rfl
    exact Bool.noConfusion ht
  · unfold restoreModeEvents at h5
    split at h5
    · rcases List.mem_singleton.mp h5 with rfl
      exact Bool.noConfusion ht
    · cases h5

theorem C7_witness : isMakedirsOrExport (Event.osMakedirs "/out/Root".data) = true :=
  C7_only_makedirs_and_exporter w4Ctx ["o"] (some "o") "OBJECT" w4St
    (Event.osMakedirs "/out/Root".data) (by decide) (by decide) (by decide)

theorem computeDir_exOk (ctx : Ctx) (f : String → List Char → Bool) (c : Collection) :
    computeDir { ctx with exOk := f } c = computeDir ctx c := rfl

theorem invocationOf_exOk (ctx : Ctx) (f : String → List Char → Bool) (c : Collection) :
    invocationOf { ctx with exOk := f } c = invocationOf ctx c := rfl

theorem stepDelta_isSome_exOk (ctx : Ctx) (f : String → List Char → Bool)
    (c : Collection) :
    (stepDelta { ctx with exOk := f } c).isSome = (stepDelta ctx c).isSome := by
  cases hf : flagOf c with
  | false => simp [stepDelta, hf]
  | true =>
    cases he : c.objects.isEmpty with
    | true => simp [stepDelta, hf, he]
    | false =>
      cases hv : (validObjects ctx.sceneObjs c).isEmpty with
      | true => simp [stepDelta, hf, he, hv]
      | false =>
        cases hcd : computeDir ctx c with
        | none => simp [stepDelta, hf, he, hv, hcd, computeDir_exOk]
        | some p =>
          obtain ⟨evs, fin⟩ := p
          simp [stepDelta, hf, he, hv, hcd, computeDir_exOk]

/-- C8: failure containment: if the host exporter operator raises for
some collections (any outcome oracle `exOk2`), the batch run still
completes, attempts exactly the same invocations in the same order as a
run whose exporter never fails, counts only successful exports in
`exported_count`, and still reaches its final restore-and-report phase
(the original selection and active object are restored) rather than
propagating the exception. -/
theorem C8_failure_containment (ctx : Ctx) (origSel : List String)
    (origActive : Option String) (origMode : String) (st : ExportState)
    (exOk2 : String → List Char → Bool)
    (hrun : export_collections_to_gltf ctx origSel origActive origMode = some st) :
    (export_collections_to_gltf { ctx with exOk := exOk2 } origSel origActive
      origMode).isSome = true ∧
    (export_collections_to_gltf { ctx with exOk := exOk2 } origSel origActive
      origMode).map (fun s => invocations s.trace) = some (invocations st.trace) ∧
    st.exported_count = successCount st.trace ∧
    st.selected = origSel.filter (fun o => ctx.sceneObjs.contains o) ∧
    st.active = origActive := by
  obtain ⟨_, _, hsel, hact, hall⟩ := run_spec ctx origSel origActive origMode st hrun
  have hall2 : ∀ c ∈ ({ ctx with exOk := exOk2 } : Ctx).cols,
      (stepDelta { ctx with exOk := exOk2 } c).isSome = true := by
    intro c hc
    rw [stepDelta_isSome_exOk]
    exact hall c hc
  have hsome := run_isSome { ctx with exOk := exOk2 } origSel origActive origMode hall2
  refine ⟨hsome, ?_, run_count ctx origSel origActive origMode st hrun, hsel, hact⟩
  cases hrun2 : export_collections_to_gltf { ctx with exOk := exOk2 } origSel
      origActive origMode with
  | none => rw [hrun2] at hsome; exact Bool.noConfusion hsome
  | some st2 =>
    rw [Option.map_some']
    have h2 := run_invocations { ctx with exOk := exOk2 } origSel origActive origMode
      st2 hrun2
    have h1 := run_invocations ctx origSel origActive origMode st hrun
    rw [h2, h1]
    have : List.filterMap (invocationOf { ctx with exOk := exOk2 })
        ({ ctx with exOk := exOk2 } : Ctx).cols =
        List.filterMap (invocationOf ctx) ctx.cols := by
      apply List.filterMap_congr
      intro c _
      exact invocationOf_exOk ctx exOk2 c
    rw [this]

/-- Failing-exporter oracle used in the witness of claim C8. -/
def w8fail : String → List Char → Bool := fun _ _ => false

/-- Final state of the witness run of claim C8: same invocations as the
all-success run `w3St`, but `exported_count` stays 0 because every
invocation fails. -/
def w8St : ExportState :=
  { selected := [], active := none,
    trace := [Event.opSelectAll "DESELECT", Event.opSelectAll "DESELECT",
      Event.opExportGltf "A" "/out/A.gltf".data true true false,
      Event.opSelectAll "DESELECT",
      Event.opExportGltf "B" "/out/B.gltf".data true true false,
      Event.opSelectAll "DESELECT"],
    exported_count := 0 }

theorem C8_witness :
    (export_collections_to_gltf { w3Ctx with exOk := w8fail } [] none
      "OBJECT").isSome = true ∧
    (export_collections_to_gltf { w3Ctx with exOk := w8fail } [] none
      "OBJECT").map (fun s => invocations s.trace) =
      some (invocations w3St.trace) ∧
    w3St.exported_count = successCount w3St.trace ∧
    w3St.selected = List.filter (fun o => w3Ctx.sceneObjs.contains o) [] ∧
    w3St.active = none :=
  C8_failure_containment w3Ctx [] none "OBJECT" w3St w8fail (by decide)

/-- C9: selection restoration: after a batch export run, every object
that was selected before the run and is still present in the current
scene is selected again, the selection equals the original selection
filtered to the scene, and the active object is restored to the object
active before the run. -/
theorem C9_selection_restored (ctx : Ctx) (origSel : List String)
    (origActive : Option String) (origMode : String) (st : ExportState)
    (o : String)
    (hrun : export_collections_to_gltf ctx origSel origActive origMode = some st) :
    st.selected = origSel.filter (fun x => ctx.sceneObjs.contains x) ∧
    (o ∈ origSel → ctx.sceneObjs.contains o = true → o ∈ st.selected) ∧
    st.active = origActive := by
  obtain ⟨_, _, hsel, hact, _⟩ := run_spec ctx origSel origActive origMode st hrun
  refine ⟨hsel, ?_, hact⟩
  intro ho hsc
  rw [hsel]
  exact List.mem_filter.mpr ⟨ho, hsc⟩

theorem C9_witness :
    w4St.selected = List.filter (fun x => w4Ctx.sceneObjs.contains x) ["o"] ∧
    ("o" ∈ (["o"] : List String) → w4Ctx.sceneObjs.contains "o" = true →
      "o" ∈ w4St.selected) ∧
    w4St.active = some "o" :=
  C9_selection_restored w4Ctx ["o"] (some "o") "OBJECT" w4St "o" (by decide)
